import Mathlib

/-!
Verification of the Handy native bridge contracts declared in
`src-tauri/swift/macos_ocr_bridge.h` and `src-tauri/swift/audio_feedback_bridge.h`.

The repository ships only the C headers for these two bridges; the Swift
implementations behind them are not part of the source tree.  The data model
below therefore takes the struct layout and the operation signatures from the
headers, and models the behaviour of each operation from the specification's
own words (each such definition carries a doc comment starting
`Modelled from the spec:`).
-/

/-- The OS-managed screen-recording permission grant state.  The OS holds this
state process-wide; the bridge only queries or requests it.  `undetermined`
also stands for any state the OS cannot definitively report. -/
inductive GrantState
  | undetermined
  | granted
  | denied
deriving DecidableEq

/-- Heap pointers; `Option Ptr` is a possibly-null `OCRTextResponse*`. -/
abbrev Ptr := Nat

/-- The C struct `OCRTextResponse` from `macos_ocr_bridge.h`:
`char* text` and `char* error_message` become `Option String` (`none` is the
null pointer), and the `int success` field with its documented 0/1 encoding
becomes `Bool`. -/
structure OCRTextResponse where
  text : Option String
  success : Bool
  error_message : Option String
deriving DecidableEq

/-- The heap of live `OCRTextResponse` allocations handed to the caller:
`next` is the next fresh pointer, `live p` the response currently allocated
at `p` (or `none` when `p` is not a live allocation). -/
structure Heap where
  next : Ptr
  live : Ptr → Option OCRTextResponse

/-- The audio-side environment of the audio feedback bridge: whether the
system output device is available, which file paths are playable (valid path,
readable format), and a log of the playback attempts actually made. -/
structure AudioEnv where
  outputAvailable : Bool
  canPlay : String → Bool
  playLog : List String

/-- The whole observable state the two bridges run against: the OCR side
(permission grant, frontmost window, recognition engine, response heap) and
the audio side, structurally independent of each other. -/
structure SysState where
  permission : GrantState
  frontmostWindow : Option Nat
  recognize : Nat → Except String String
  heap : Heap
  audio : AudioEnv

/-- Modelled from the spec: the value `preflightAccess` reports for a given
OS grant state — `true` exactly when the permission is definitively granted;
any other state, including inability to determine, collapses to `false`
(fail-closed). -/
def preflightValue : GrantState → Bool
  | GrantState.granted => true
  | _ => false

/-- Modelled from the spec: `macos_ocr_preflight_screen_capture_access`, a
non-blocking, side-effect-free query of the current grant state.  The Swift
implementation is missing from the tree; the header declares only the
signature. -/
def macos_ocr_preflight_screen_capture_access (s : SysState) : SysState × Bool :=
  (s, preflightValue s.permission)

/-- Modelled from the spec: one `requestAccess` step over the OS grant state.
`userGrants` is the user's answer should a consent prompt be shown.  Returns
the new grant state, the reported grant value, and whether a consent prompt
was triggered: a definitive grant/deny is surfaced without re-prompting, an
undetermined state prompts and becomes definitive. -/
def requestAccessStep (st : GrantState) (userGrants : Bool) : GrantState × Bool × Bool :=
  match st with
  | GrantState.granted => (GrantState.granted, true, false)
  | GrantState.denied => (GrantState.denied, false, false)
  | GrantState.undetermined =>
      if userGrants then (GrantState.granted, true, true)
      else (GrantState.denied, false, true)

/-- Modelled from the spec: `macos_ocr_request_screen_capture_access` — may
show an OS consent prompt and returns the resulting grant state.  The Swift
implementation is missing from the tree. -/
def macos_ocr_request_screen_capture_access (s : SysState) (userGrants : Bool) :
    SysState × Bool × Bool :=
  let r := requestAccessStep s.permission userGrants
  ({ s with permission := r.1 }, r.2.1, r.2.2)

/-- Modelled from the spec: the capture-and-recognize pipeline state machine.
Returns the packaged response together with a flag recording whether an
actual OS capture was attempted.  Unauthorized short-circuits with no OS
capture; otherwise a missing frontmost window or an engine fault produce the
uniform failure shape, and recognized text (possibly empty) is a success. -/
def capturePipeline (perm : GrantState) (win : Option Nat)
    (recognize : Nat → Except String String) : OCRTextResponse × Bool :=
  if preflightValue perm then
    match win with
    | none => (⟨none, false, some "no frontmost window"⟩, true)
    | some w =>
      match recognize w with
      | Except.error msg => (⟨none, false, some msg⟩, true)
      | Except.ok str => (⟨some str, true, none⟩, true)
  else
    (⟨none, false, some "permission not granted"⟩, false)

/-- Modelled from the spec: `macos_ocr_capture_frontmost_window_text` — runs
the pipeline, heap-allocates the resulting response and returns its (never
null) pointer, together with the pipeline's attempted-OS-capture flag.  The
Swift implementation is missing from the tree. -/
def macos_ocr_capture_frontmost_window_text (s : SysState) :
    SysState × Option Ptr × Bool :=
  let r := capturePipeline s.permission s.frontmostWindow s.recognize
  ({ s with
      heap :=
        { next := s.heap.next + 1,
          live := fun q => if q = s.heap.next then some r.1 else s.heap.live q } },
   some s.heap.next, r.2)

/-- Modelled from the spec: `macos_ocr_free_response` — a null argument is a
no-op; a non-null pointer's allocation is released: the structure and
whichever of its owned strings is populated go away together, so the entry
leaves the live heap.  The Swift implementation is missing from the tree. -/
def macos_ocr_free_response (s : SysState) (response : Option Ptr) : SysState :=
  match response with
  | none => s
  | some p =>
      { s with heap :=
          { s.heap with live := fun q => if q = p then none else s.heap.live q } }

/-- Modelled from the spec: `is_system_output_available` — returns 1 if the
system output device is available, 0 if not; no side effects.  The Swift
implementation is missing from the tree. -/
def is_system_output_available (s : SysState) : SysState × Int :=
  (s, if s.audio.outputAvailable then 1 else 0)

/-- Modelled from the spec: the return code and attempted-playback flag of a
playback request against a given audio environment: an unavailable device
fails with a negative code before any attempt; an unplayable path (invalid
path, unreadable format) fails with a negative code during the attempt;
otherwise the call succeeds with 0. -/
def playSoundResult (a : AudioEnv) (filePath : String) : Int × Bool :=
  if a.outputAvailable then
    if a.canPlay filePath then (0, true) else (-2, true)
  else (-1, false)

/-- Modelled from the spec: `play_sound_via_system_output` — plays a sound
file through the system output device; 0 on success, negative code on
failure; records an entry in the playback log exactly when playback is
attempted.  The `volume` argument (0.0 to 1.0 in the header) plays no role
in the success/failure contract.  The Swift implementation is missing from
the tree. -/
def play_sound_via_system_output (s : SysState) (filePath : String) (volume : Int) :
    SysState × Int × Bool :=
  let r := playSoundResult s.audio filePath
  if r.2 then
    ({ s with audio := { s.audio with playLog := filePath :: s.audio.playLog } },
     r.1, r.2)
  else (s, r.1, r.2)

/-- A run of `n` consecutive preflight calls, each from the state the
previous one left behind, collecting the returned values. -/
def repeatedPreflight (s : SysState) : Nat → List Bool
  | 0 => []
  | n + 1 =>
      (macos_ocr_preflight_screen_capture_access s).2 ::
        repeatedPreflight (macos_ocr_preflight_screen_capture_access s).1 n

/-- Concrete sample states for witnesses. -/
def sampleAudio : AudioEnv := ⟨true, fun _ => true, []⟩

def deadAudio : AudioEnv := ⟨false, fun _ => true, []⟩

def emptyHeap : Heap := ⟨0, fun _ => none⟩

def sDenied : SysState :=
  ⟨GrantState.denied, none, fun _ => Except.ok "", emptyHeap, sampleAudio⟩

def sGranted : SysState :=
  ⟨GrantState.granted, some 0, fun _ => Except.ok "", emptyHeap, sampleAudio⟩

def sUndetermined : SysState :=
  ⟨GrantState.undetermined, none, fun _ => Except.ok "", emptyHeap, sampleAudio⟩

def sNoAudio : SysState :=
  ⟨GrantState.granted, none, fun _ => Except.ok "", emptyHeap, deadAudio⟩

/-- Claim C1: every invocation of `macos_ocr_capture_frontmost_window_text`
returns a non-null result pointer, in the Success and the Failure terminal
state alike; there is no exception-style failure path. -/
theorem capture_result_ptr_never_null (s : SysState) :
    ((macos_ocr_capture_frontmost_window_text s).2.1).isSome = true := rfl

/-- Claim C2: every response produced by a capture call populates exactly one
of `text` and `error_message`, determined by `success`: `text` is non-null
exactly when `success` holds, `error_message` exactly when it does not. -/
theorem capture_result_exactly_one_populated (s : SysState) :
    ∃ p r, (macos_ocr_capture_frontmost_window_text s).2.1 = some p ∧
      (macos_ocr_capture_frontmost_window_text s).1.heap.live p = some r ∧
      r.text.isSome = r.success ∧
      r.error_message.isSome = !r.success := by
  refine ⟨s.heap.next, (capturePipeline s.permission s.frontmostWindow s.recognize).1,
    rfl, ?_, ?_, ?_⟩
  · simp [macos_ocr_capture_frontmost_window_text]
  · unfold capturePipeline
    cases preflightValue s.permission <;>
      cases hw : s.frontmostWindow <;> simp
    case true.some w =>
      cases s.recognize w <;> simp
  · unfold capturePipeline
    cases preflightValue s.permission <;>
      cases hw : s.frontmostWindow <;> simp
    case true.some w =>
      cases s.recognize w <;> simp

/-- Claim C3: when the screen-recording permission is not granted at capture
time, the capture call short-circuits: no actual OS capture is attempted and
the allocated response has `success = false` with a non-null descriptive
error message. -/
theorem capture_short_circuits_without_permission (s : SysState)
    (h : (macos_ocr_preflight_screen_capture_access s).2 = false) :
    (macos_ocr_capture_frontmost_window_text s).2.2 = false ∧
    (macos_ocr_capture_frontmost_window_text s).1.heap.live s.heap.next =
      some ⟨none, false, some "permission not granted"⟩ := by
  have hp : preflightValue s.permission = false := h
  constructor
  · simp [macos_ocr_capture_frontmost_window_text, capturePipeline, hp]
  · simp [macos_ocr_capture_frontmost_window_text, capturePipeline, hp]

/-- Witness for C3 at the concrete denied state. -/
theorem capture_short_circuits_without_permission_witness :
    (macos_ocr_capture_frontmost_window_text sDenied).2.2 = false ∧
    (macos_ocr_capture_frontmost_window_text sDenied).1.heap.live sDenied.heap.next =
      some ⟨none, false, some "permission not granted"⟩ :=
  capture_short_circuits_without_permission sDenied rfl

/-- Claim C4: with permission granted, a frontmost window present and the
recognition engine yielding no text, the capture call allocates a response
with `success = true`, `text` the empty string (not null) and a null
`error_message` — empty recognized text is not an error. -/
theorem capture_empty_text_is_success (s : SysState) (w : Nat)
    (h1 : (macos_ocr_preflight_screen_capture_access s).2 = true)
    (h2 : s.frontmostWindow = some w)
    (h3 : s.recognize w = Except.ok "") :
    (macos_ocr_capture_frontmost_window_text s).1.heap.live s.heap.next =
      some ⟨some "", true, none⟩ := by
  have hp : preflightValue s.permission = true := h1
  simp [macos_ocr_capture_frontmost_window_text, capturePipeline, hp, h2, h3]

/-- Witness for C4 at the concrete granted state whose engine returns empty
text for every window. -/
theorem capture_empty_text_is_success_witness :
    (macos_ocr_capture_frontmost_window_text sGranted).1.heap.live sGranted.heap.next =
      some ⟨some "", true, none⟩ :=
  capture_empty_text_is_success sGranted 0 rfl rfl rfl

/-- Claim C5: `macos_ocr_request_screen_capture_access` is idempotent on a
definitively granted or denied state: the first call triggers no consent
prompt and leaves the grant state unchanged, and a repeated call returns the
same value, again without prompting. -/
theorem request_access_idempotent (s : SysState) (u u' : Bool)
    (h : s.permission = GrantState.granted ∨ s.permission = GrantState.denied) :
    (macos_ocr_request_screen_capture_access s u).2.2 = false ∧
    (macos_ocr_request_screen_capture_access s u).1.permission = s.permission ∧
    (macos_ocr_request_screen_capture_access
        (macos_ocr_request_screen_capture_access s u).1 u').2.1 =
      (macos_ocr_request_screen_capture_access s u).2.1 ∧
    (macos_ocr_request_screen_capture_access
        (macos_ocr_request_screen_capture_access s u).1 u').2.2 = false := by
  rcases h with h | h <;>
    simp [macos_ocr_request_screen_capture_access, requestAccessStep, h]

/-- Witness for C5 at the concrete granted state. -/
theorem request_access_idempotent_witness :
    (macos_ocr_request_screen_capture_access sGranted true).2.2 = false ∧
    (macos_ocr_request_screen_capture_access sGranted true).1.permission =
      sGranted.permission ∧
    (macos_ocr_request_screen_capture_access
        (macos_ocr_request_screen_capture_access sGranted true).1 false).2.1 =
      (macos_ocr_request_screen_capture_access sGranted true).2.1 ∧
    (macos_ocr_request_screen_capture_access
        (macos_ocr_request_screen_capture_access sGranted true).1 false).2.2 = false :=
  request_access_idempotent sGranted true false (Or.inl rfl)

/-- Every value in a run of consecutive preflight calls is the value the
first call returns. -/
theorem repeatedPreflight_eq_replicate (s : SysState) (n : Nat) :
    repeatedPreflight s n =
      List.replicate n (macos_ocr_preflight_screen_capture_access s).2 := by
  induction n with
  | zero => rfl
  | succ n ih =>
      have hs : (macos_ocr_preflight_screen_capture_access s).1 = s := rfl
      rw [repeatedPreflight, hs, ih, List.replicate]

/-- Claim C6: `macos_ocr_preflight_screen_capture_access` is side-effect-free
(it returns the state unchanged), and every value returned during a run of
repeated preflight calls with no intervening request equals the value of the
first call. -/
theorem preflight_pure_and_stable (s : SysState) (n : Nat) (b : Bool)
    (h : b ∈ repeatedPreflight s n) :
    (macos_ocr_preflight_screen_capture_access s).1 = s ∧
    b = (macos_ocr_preflight_screen_capture_access s).2 := by
  refine ⟨rfl, ?_⟩
  rw [repeatedPreflight_eq_replicate] at h
  exact List.eq_of_mem_replicate h

/-- Witness for C6: a run of two preflight calls from the concrete granted
state, both returning true. -/
theorem preflight_pure_and_stable_witness :
    (macos_ocr_preflight_screen_capture_access sGranted).1 = sGranted ∧
    true = (macos_ocr_preflight_screen_capture_access sGranted).2 :=
  preflight_pure_and_stable sGranted 2 true
    (by simp [repeatedPreflight, macos_ocr_preflight_screen_capture_access,
      sGranted, preflightValue])

/-- Claim C7: `macos_ocr_free_response` on a null pointer is a no-op that
changes no state; on a non-null pointer it releases that allocation — the
structure together with whichever owned string it holds leaves the live
heap — and touches no other allocation. -/
theorem free_response_contract (s : SysState) (p q : Ptr) (hq : q ≠ p) :
    macos_ocr_free_response s none = s ∧
    (macos_ocr_free_response s (some p)).heap.live p = none ∧
    (macos_ocr_free_response s (some p)).heap.live q = s.heap.live q := by
  refine ⟨rfl, ?_, ?_⟩ <;> simp [macos_ocr_free_response, hq]

/-- Witness for C7 at a concrete state and pointers 1 ≠ 0. -/
theorem free_response_contract_witness :
    macos_ocr_free_response sGranted none = sGranted ∧
    (macos_ocr_free_response sGranted (some 0)).heap.live 0 = none ∧
    (macos_ocr_free_response sGranted (some 0)).heap.live 1 = sGranted.heap.live 1 :=
  free_response_contract sGranted 0 1 (by decide)

/-- Claim C8: `play_sound_via_system_output` returns 0 on success and a
negative code on failure, and whenever `is_system_output_available` reports
0 it returns a negative code for every argument pair without attempting
playback. -/
theorem play_sound_fail_when_unavailable (s : SysState) (filePath : String)
    (volume : Int) (h : (is_system_output_available s).2 = 0) :
    (∀ s' fp v, (play_sound_via_system_output s' fp v).2.1 = 0 ∨
      (play_sound_via_system_output s' fp v).2.1 < 0) ∧
    (play_sound_via_system_output s filePath volume).2.1 < 0 ∧
    (play_sound_via_system_output s filePath volume).2.2 = false := by
  have ha : s.audio.outputAvailable = false := by
    by_contra hc
    simp [is_system_output_available, eq_true_of_ne_false hc] at h
  refine ⟨?_, ?_, ?_⟩
  · intro s' fp v
    unfold play_sound_via_system_output playSoundResult
    cases hA : s'.audio.outputAvailable <;> cases hP : s'.audio.canPlay fp <;> simp
  · simp [play_sound_via_system_output, playSoundResult, ha]
  · simp [play_sound_via_system_output, playSoundResult, ha]

/-- Witness for C8 at the concrete state whose output device is unavailable. -/
theorem play_sound_fail_when_unavailable_witness :
    (∀ s' fp v, (play_sound_via_system_output s' fp v).2.1 = 0 ∨
      (play_sound_via_system_output s' fp v).2.1 < 0) ∧
    (play_sound_via_system_output sNoAudio "beep.wav" 1).2.1 < 0 ∧
    (play_sound_via_system_output sNoAudio "beep.wav" 1).2.2 = false :=
  play_sound_fail_when_unavailable sNoAudio "beep.wav" 1 rfl

/-- Claim C9: `macos_ocr_preflight_screen_capture_access` is fail-closed: in
every state that is not definitively granted — including inability to
determine the OS grant state — it returns false; no error path exists. -/
theorem preflight_fail_closed (s : SysState)
    (h : s.permission ≠ GrantState.granted) :
    (macos_ocr_preflight_screen_capture_access s).2 = false := by
  unfold macos_ocr_preflight_screen_capture_access preflightValue
  cases hp : s.permission <;> simp_all

/-- Witness for C9 at the concrete undetermined state. -/
theorem preflight_fail_closed_witness :
    (macos_ocr_preflight_screen_capture_access sUndetermined).2 = false :=
  preflight_fail_closed sUndetermined (by decide)

/-- Claim C10: the audio bridge and the OCR bridge share no state: every
audio-bridge call leaves the permission state, the frontmost window, the
recognition engine and every live response unchanged, and every OCR-bridge
call leaves the audio environment unchanged. -/
theorem bridges_share_no_state (s : SysState) (filePath : String) (volume : Int)
    (u : Bool) (p : Option Ptr) :
    (play_sound_via_system_output s filePath volume).1.permission = s.permission ∧
    (play_sound_via_system_output s filePath volume).1.frontmostWindow =
      s.frontmostWindow ∧
    (play_sound_via_system_output s filePath volume).1.recognize = s.recognize ∧
    (play_sound_via_system_output s filePath volume).1.heap = s.heap ∧
    (is_system_output_available s).1 = s ∧
    (macos_ocr_preflight_screen_capture_access s).1.audio = s.audio ∧
    (macos_ocr_request_screen_capture_access s u).1.audio = s.audio ∧
    (macos_ocr_capture_frontmost_window_text s).1.audio = s.audio ∧
    (macos_ocr_free_response s p).audio = s.audio := by
  cases hA : (playSoundResult s.audio filePath).2 <;> cases p <;>
    simp [play_sound_via_system_output, hA, is_system_output_available,
      macos_ocr_preflight_screen_capture_access,
      macos_ocr_request_screen_capture_access,
      macos_ocr_capture_frontmost_window_text, macos_ocr_free_response]
